import Mathlib

/-!
Shallow embedding of the indicator/signal engine of
`src/ui/src/utils/technicalIndicators.js` (stock-market-digital-twin,
frontend technical-analysis module), together with proofs about it.

Conventions of the embedding:
* JavaScript numbers are idealised as exact rationals `ℚ`; the one use of
  `Math.sqrt` (Bollinger-band standard deviation) is idealised as `Real.sqrt`
  over `ℝ`, so the two Bollinger band sequences are `ℝ`-valued.
* `null`/`undefined` array entries are `Option.none`; JavaScript truthiness of
  a number (`x &&`) is "present and nonzero"; comparisons against
  `undefined`/`NaN` are `false`, mirrored by the `js*` comparison helpers.
* Out-of-bounds or negative array reads give `none` (JavaScript `undefined`).
* `calculateRSI` reads `data[i].close`; the engine hands it an array of plain
  numbers.  To embed that dynamic-typing faithfully its input is a list of
  `JSVal` (a number or a bar object); `.close` of a plain number is
  `undefined`, and arithmetic on `undefined` is NaN-propagating.
* The purely presentational fields of a signal (the `description` text and the
  `toFixed`-formatted `value` string) are not modelled: no computation in the
  module reads them.  Each remaining field is translated literally.
-/

/-- One OHLCV bar.  The engine reads only `high`, `low`, `close` and `volume`;
the `open` and timestamp fields of the UI's bar objects are never read by any
function of the module, so they are not carried. -/
structure Bar where
  high : ℚ
  low : ℚ
  close : ℚ
  volume : ℚ
deriving DecidableEq

instance : Inhabited Bar := ⟨⟨0, 0, 0, 0⟩⟩

/-- A JavaScript value as `calculateRSI` can receive it: a plain number or a
bar object (the function body reads `.close`, so only that field matters for
the object case, but the whole bar is kept). -/
inductive JSVal where
  | num (q : ℚ)
  | bar (b : Bar)
deriving DecidableEq

/-- Reading `v.close` on a JavaScript value: a bar object yields its close, a plain
number has no `.close` field, which reads as `undefined` (`none`). -/
def JSVal.closeField : JSVal → Option ℚ
  | num _ => none
  | bar b => some b.close

/-- JavaScript subtraction where either operand may be `undefined`: any
`undefined` operand makes the result NaN, represented as `none`. -/
def jsSub : Option ℚ → Option ℚ → Option ℚ
  | some x, some y => some (x - y)
  | _, _ => none

/-- JavaScript array read `l[i]` with a signed index: out of bounds (or
negative) is `undefined`. -/
def jIdx {α : Type} (l : List α) (i : ℤ) : Option α :=
  if 0 ≤ i then l.get? i.toNat else none

/-- Read of a number array at a signed index. -/
def jgetN (l : List ℚ) (i : ℤ) : Option ℚ := jIdx l i

/-- Read of a nullable-number array at a signed index; `undefined` (out of
bounds) and `null` (a stored `none`) behave identically downstream, so both
collapse to `none`. -/
def jgetO (l : List (Option ℚ)) (i : ℤ) : Option ℚ := (jIdx l i).join

/-- JavaScript truthiness of a possibly-absent number: present and nonzero. -/
def jTruthy : Option ℚ → Bool
  | none => false
  | some q => decide (q ≠ 0)

/-- Value of a possibly-absent number once truthiness has been established
(`0` is never reached under a `jTruthy` guard). -/
def jval (v : Option ℚ) : ℚ := v.getD 0

/-- JavaScript `a > b` where either side may be `undefined`; a comparison
with `undefined` is `false`. -/
def jsGT : Option ℚ → Option ℚ → Bool
  | some a, some b => decide (b < a)
  | _, _ => false

/-- JavaScript `a < b` with `undefined` comparing as `false`. -/
def jsLT (a b : Option ℚ) : Bool := jsGT b a

/-- JavaScript `a <= b` with `undefined` comparing as `false`. -/
def jsLE : Option ℚ → Option ℚ → Bool
  | some a, some b => decide (a ≤ b)
  | _, _ => false

/-! ## Series math: `calculateSMA`, `calculateEMA` -/

/-- Source `calculateSMA(data, period)`: arithmetic mean of the trailing `period`
values, `null` while fewer than `period` values are available.  The source
accepts numbers or bar objects (`typeof val === 'number' ? val : val.close`);
every call in the module is on plain close prices, embedded here directly. -/
def calculateSMA (data : List ℚ) (period : ℕ) : List (Option ℚ) :=
  (List.range data.length).map fun i =>
    if i + 1 < period then none
    else some (((data.drop (i + 1 - period)).take period).sum / period)

/-- The tail of `calculateEMA`: given the multiplier and the previous EMA
value, each new value `v` contributes `v * k + prev * (1 - k)`. -/
def emaAux (k : ℚ) (prev : ℚ) : List ℚ → List ℚ
  | [] => []
  | v :: vs => (v * k + prev * (1 - k)) :: emaAux k (v * k + prev * (1 - k)) vs

/-- Source `calculateEMA(data, period)`: the first entry seeds with the first value
itself; later entries use the multiplier `k = 2/(period+1)`.  The source's
number-or-object dispatch is dropped as above (all engine calls pass plain
numbers, `calculateMACD` maps its `{close: v}` wrappers back to numbers). -/
def calculateEMA (data : List ℚ) (period : ℕ) : List ℚ :=
  match data with
  | [] => []
  | x :: xs => x :: emaAux (2 / ((period : ℚ) + 1)) x xs

/-! ## `calculateRSI` -/

/-- The close-to-close changes `data[i].close - data[i-1].close` for
`i = 1 .. len-1` (length `len - 1`); `none` is a NaN change, which arises
exactly when a `.close` read was `undefined`. -/
def rsiChanges (data : List JSVal) : List (Option ℚ) :=
  (data.zip (data.drop 1)).map fun p => jsSub p.2.closeField p.1.closeField

/-- The gain `change > 0 ? change : 0` (NaN compares false, giving 0). -/
def rsiGain : Option ℚ → ℚ
  | some c => if 0 < c then c else 0
  | none => 0

/-- The loss `change < 0 ? Math.abs(change) : 0` (NaN compares false, giving 0). -/
def rsiLoss : Option ℚ → ℚ
  | some c => if c < 0 then |c| else 0
  | none => 0

/-- Source `calculateRSI(data, period = 14)`: `null` for the first `period` indices,
then `100 - 100/(1 + avgGain/avgLoss)` over the trailing `period` gains and
losses, with `100` when `avgLoss` is zero. -/
def calculateRSI (data : List JSVal) (period : ℕ := 14) : List (Option ℚ) :=
  let gains := (rsiChanges data).map rsiGain
  let losses := (rsiChanges data).map rsiLoss
  (List.range data.length).map fun i =>
    if i < period then none
    else
      let avgGain := ((gains.drop (i - period)).take period).sum / period
      let avgLoss := ((losses.drop (i - period)).take period).sum / period
      if avgLoss = 0 then some 100
      else some (100 - 100 / (1 + avgGain / avgLoss))

/-! ## `calculateMACD` -/

/-- The three sequences `calculateMACD` returns.  `signal` is a plain EMA, so
it carries no `null`s; the source's `null` guards on `macd`/`histogram` are
kept even though `calculateEMA` never produces `null`. -/
structure MACDResult where
  macd : List (Option ℚ)
  signal : List ℚ
  histogram : List (Option ℚ)
deriving DecidableEq

/-- Source `calculateMACD(data, 12, 26, 9)`: fast EMA minus slow EMA, a signal EMA of
the MACD line, and their difference.  The source wraps the MACD line into
`{close: value || 0}` objects before the signal EMA; `value || 0` on a
nullable number is `Option.getD 0`. -/
def calculateMACD (data : List ℚ) (fastPeriod : ℕ := 12) (slowPeriod : ℕ := 26)
    (signalPeriod : ℕ := 9) : MACDResult :=
  let fastEMA := calculateEMA data fastPeriod
  let slowEMA := calculateEMA data slowPeriod
  let macdLine : List (Option ℚ) := (fastEMA.zip slowEMA).map fun p => some (p.1 - p.2)
  let macdData := macdLine.map fun v => v.getD 0
  let signalLine := calculateEMA macdData signalPeriod
  let histogram := (macdLine.zip signalLine).map fun p =>
    match p.1 with
    | none => none
    | some m => some (m - p.2)
  { macd := macdLine, signal := signalLine, histogram := histogram }

/-! ## `calculateBollingerBands` -/

/-- Bollinger bands.  `middle` is the SMA (rational); `upper`/`lower` add and
subtract `stdDev` standard deviations, and the standard deviation is a real
square root, so those two sequences are `ℝ`-valued. -/
structure BBResult where
  upper : List (Option ℝ)
  middle : List (Option ℚ)
  lower : List (Option ℝ)

/-- The trailing window `data.slice(i - period + 1, i + 1)` of closes. -/
def bbWindow (closes : List ℚ) (period i : ℕ) : List ℚ :=
  (closes.drop (i + 1 - period)).take period

/-- The population variance of the window around `mean`:
`slice.reduce((acc, val) => acc + (val.close - mean)^2, 0) / period`. -/
def bbVariance (closes : List ℚ) (period i : ℕ) (mean : ℚ) : ℚ :=
  ((bbWindow closes period i).map fun c => (c - mean) ^ 2).sum / period

/-- Source `calculateBollingerBands(data, 20, 2)`: SMA middle band, and
`middle ± stdDev·σ` with `σ = Math.sqrt(variance)`, `null` while the SMA
window is incomplete.  `mean` is read back from the SMA sequence exactly as
the source does (`sma[i]`, always present on this branch). -/
noncomputable def calculateBollingerBands (data : List Bar) (period : ℕ := 20)
    (stdDev : ℚ := 2) : BBResult :=
  let closes := data.map Bar.close
  let sma := calculateSMA closes period
  { upper := (List.range data.length).map fun i =>
      if i + 1 < period then none
      else
        let mean := jval ((sma.get? i).join)
        some ((mean : ℝ) + Real.sqrt (bbVariance closes period i mean) * (stdDev : ℝ))
    middle := (List.range data.length).map fun i =>
      if i + 1 < period then none
      else (sma.get? i).join
    lower := (List.range data.length).map fun i =>
      if i + 1 < period then none
      else
        let mean := jval ((sma.get? i).join)
        some ((mean : ℝ) - Real.sqrt (bbVariance closes period i mean) * (stdDev : ℝ)) }

/-! ## `calculateVWAP` and `calculateATR` -/

/-- The typical price `(high + low + close) / 3` of a bar. -/
def typicalPrice (b : Bar) : ℚ := (b.high + b.low + b.close) / 3

/-- The default `data[i].volume || 1`: a zero volume is replaced by `1`.  (A nonzero
volume, negative included, is truthy and kept, exactly as `||` does.) -/
def effVolume (b : Bar) : ℚ := if b.volume = 0 then 1 else b.volume

/-- The running state of `calculateVWAP`: cumulative volume and cumulative
volume-weighted typical price, emitting their quotient at every bar. -/
def vwapAux : List Bar → ℚ → ℚ → List ℚ
  | [], _, _ => []
  | b :: rest, cumV, cumPV =>
    (cumPV + typicalPrice b * effVolume b) / (cumV + effVolume b) ::
      vwapAux rest (cumV + effVolume b) (cumPV + typicalPrice b * effVolume b)

/-- Source `calculateVWAP(data)`: session-cumulative VWAP, defined at every index. -/
def calculateVWAP (data : List Bar) : List ℚ := vwapAux data 0 0

/-- The true range of a bar against the previous close:
`max(high - low, |high - prevClose|, |low - prevClose|)`. -/
def trueRange (prev cur : Bar) : ℚ :=
  max (cur.high - cur.low) (max |cur.high - prev.close| |cur.low - prev.close|)

/-- The true ranges of bars `1 .. len-1` (index 0 has no previous close). -/
def trueRanges (data : List Bar) : List ℚ :=
  (data.zip (data.drop 1)).map fun p => trueRange p.1 p.2

/-- Source `calculateATR(data, period = 14)`: one entry per bar from index 1 on
(the result is one shorter than the input!); entry `j` (bar `j+1`) is `null`
until `period` true ranges have accumulated and the mean of the last `period`
true ranges (`trueRanges.slice(-period)`) afterwards. -/
def calculateATR (data : List Bar) (period : ℕ := 14) : List (Option ℚ) :=
  let trs := trueRanges data
  (List.range trs.length).map fun j =>
    if period ≤ j + 1 then some (((trs.take (j + 1)).drop (j + 1 - period)).sum / period)
    else none

/-! ## `calculateTTMSqueeze` -/

/-- One non-null TTM squeeze entry. -/
structure TTMEntry where
  inSqueeze : Bool
  momentum : ℚ
  barColor : String
  kcUpper : ℚ
  kcLower : ℚ
deriving DecidableEq

/-- Truthiness of a possibly-absent real number (the Bollinger bands are
`ℝ`-valued): present and nonzero. -/
def rTruthy : Option ℝ → Prop
  | none => False
  | some x => x ≠ 0

open Classical in
/-- One iteration of the `calculateTTMSqueeze` loop at index `i`, given the
previous result entry (`result[i-1]`, `none` both for `i = 0` and when the
previous entry was `null`).  The guard is the source's
`bb.upper[i] && bb.lower[i] && ema[i] && atr[i]`. -/
noncomputable def ttmStep (data : List Bar) (bb : BBResult) (ema : List ℚ)
    (atr : List (Option ℚ)) (kcMultiplier : ℚ) (i : ℕ) (prev : Option TTMEntry) :
    Option TTMEntry :=
  if rTruthy ((bb.upper.get? i).join) ∧ rTruthy ((bb.lower.get? i).join) ∧
      jTruthy (ema.get? i) ∧ jTruthy ((atr.get? i).join) then
    let emaV := jval (ema.get? i)
    let atrV := jval ((atr.get? i).join)
    let kcUpper := emaV + kcMultiplier * atrV
    let kcLower := emaV - kcMultiplier * atrV
    let inSqueeze : Bool := decide
      ((kcLower : ℝ) < (((bb.lower.get? i).join).getD 0) ∧
        (((bb.upper.get? i).join).getD 0) < (kcUpper : ℝ))
    let momentum := jval ((data.get? i).map Bar.close) - (kcUpper + kcLower) / 2
    let barColor :=
      if 0 < i ∧ prev.isSome then
        if (prev.map TTMEntry.momentum).getD 0 < momentum then
          if 0 < momentum then "lime" else "red"
        else
          if 0 < momentum then "green" else "maroon"
      else "gray"
    some ⟨inSqueeze, momentum, barColor, kcUpper, kcLower⟩
  else none

/-- Runs `count` iterations of a stateful loop from index `start`, each step
seeing the previous step's output (the `result[i-1]` read of the source). -/
def ttmLoop (step : ℕ → Option TTMEntry → Option TTMEntry) :
    ℕ → ℕ → Option TTMEntry → List (Option TTMEntry)
  | 0, _, _ => []
  | count + 1, start, prev =>
    step start prev :: ttmLoop step count (start + 1) (step start prev)

/-- Source `calculateTTMSqueeze(data, 20, 2, 20, 1.5)`: Bollinger bands against the
Keltner channel `EMA(close,20) ± 1.5·ATR(20)`, with the momentum bar colour
derived from the sign of the momentum and its change since the previous
entry. -/
noncomputable def calculateTTMSqueeze (data : List Bar) (bbPeriod : ℕ := 20)
    (bbStdDev : ℚ := 2) (kcPeriod : ℕ := 20) (kcMultiplier : ℚ := 3 / 2) :
    List (Option TTMEntry) :=
  let bb := calculateBollingerBands data bbPeriod bbStdDev
  let ema := calculateEMA (data.map Bar.close) kcPeriod
  let atr := calculateATR data kcPeriod
  ttmLoop (ttmStep data bb ema atr kcMultiplier) data.length 0 none

/-! ## `detectSupportResistance` -/

/-- A raw local-extremum candidate of `detectSupportResistance` (`{price,
index, type}` with type `'resistance'` or `'support'`). -/
structure SRPoint where
  price : ℚ
  index : ℕ
  type : String
deriving DecidableEq

/-- A grouped level of `detectSupportResistance`. -/
structure SRLevel where
  price : ℚ
  type : String
  touches : ℕ
  lastTouch : ℕ
deriving DecidableEq

/-- Read of `data[j].high` with the (never exercised) in-bounds default `0`. -/
def barHigh (data : List Bar) (j : ℕ) : ℚ := ((data.get? j).map Bar.high).getD 0

/-- Read of `data[j].low` with the (never exercised) in-bounds default `0`. -/
def barLow (data : List Bar) (j : ℕ) : ℚ := ((data.get? j).map Bar.low).getD 0

/-- The symmetric window `[i - lookback, i + lookback]` of indices scanned by
the local-extremum tests. -/
def extWindow (lookback i : ℕ) : List ℕ := List.range' (i - lookback) (2 * lookback + 1)

/-- Bar `i` is a local high: every other bar of the window has a strictly
smaller high (`data[j].high >= data[i].high` falsifies it). -/
def isLocalHigh (data : List Bar) (lookback i : ℕ) : Bool :=
  (extWindow lookback i).all fun j => j = i || decide (barHigh data j < barHigh data i)

/-- Bar `i` is a local low: every other bar of the window has a strictly
larger low. -/
def isLocalLow (data : List Bar) (lookback i : ℕ) : Bool :=
  (extWindow lookback i).all fun j => j = i || decide (barLow data i < barLow data j)

/-- The indices the extremum scan visits: `lookback ≤ i < len - lookback`. -/
def extIndices (len lookback : ℕ) : List ℕ :=
  (List.range len).filter fun i => lookback ≤ i ∧ i + lookback < len

/-- The `highs` list of `detectSupportResistance`. -/
def srHighs (data : List Bar) (lookback : ℕ) : List SRPoint :=
  ((extIndices data.length lookback).filter (isLocalHigh data lookback)).map fun i =>
    ⟨barHigh data i, i, "resistance"⟩

/-- The `lows` list of `detectSupportResistance`. -/
def srLows (data : List Bar) (lookback : ℕ) : List SRPoint :=
  ((extIndices data.length lookback).filter (isLocalLow data lookback)).map fun i =>
    ⟨barLow data i, i, "support"⟩

/-- Merging one candidate into the grouped levels: the first level within
`touchThreshold` (relative to the candidate's price) gains a touch, otherwise
a new single-touch level is appended. -/
def srInsert (touchThreshold : ℚ) (p : SRPoint) : List SRLevel → List SRLevel
  | [] => [⟨p.price, p.type, 1, p.index⟩]
  | g :: rest =>
    if |g.price - p.price| / p.price < touchThreshold then
      ⟨g.price, g.type, g.touches + 1, max g.lastTouch p.index⟩ :: rest
    else g :: srInsert touchThreshold p rest

/-- Source `detectSupportResistance(data, 20, 0.02)`: local highs and lows grouped by
relative price proximity, keeping the levels touched at least twice. -/
def detectSupportResistance (data : List Bar) (lookback : ℕ := 20)
    (touchThreshold : ℚ := 1 / 50) : List SRLevel :=
  let allLevels := srHighs data lookback ++ srLows data lookback
  let groupedLevels := allLevels.foldl (fun acc p => srInsert touchThreshold p acc) []
  groupedLevels.filter fun level => 2 ≤ level.touches

/-! ## `detectDoubleTopBottom` -/

/-- A peak or trough `{price, index}` of `detectDoubleTopBottom`. -/
structure PPoint where
  price : ℚ
  index : ℕ
deriving DecidableEq

/-- A detected chart pattern. -/
structure Pattern where
  type : String
  price : ℚ
  startIndex : ℕ
  endIndex : ℕ
  signal : String
deriving DecidableEq

/-- The `peaks` list of `detectDoubleTopBottom` (same extremum test as the
support/resistance scan). -/
def dtPeaks (data : List Bar) (lookback : ℕ) : List PPoint :=
  ((extIndices data.length lookback).filter (isLocalHigh data lookback)).map fun i =>
    ⟨barHigh data i, i⟩

/-- The `troughs` list of `detectDoubleTopBottom`. -/
def dtTroughs (data : List Bar) (lookback : ℕ) : List PPoint :=
  ((extIndices data.length lookback).filter (isLocalLow data lookback)).map fun i =>
    ⟨barLow data i, i⟩

/-- All ordered pairs `(l[i], l[j])` with `i < j`, in the order the nested
loops of `detectDoubleTopBottom` visit them. -/
def pairsAfter : List PPoint → List (PPoint × PPoint)
  | [] => []
  | p :: rest => (rest.map fun q => (p, q)) ++ pairsAfter rest

/-- The pairing condition: prices within `tolerance` (relative to the first
point's price) and indices more than 10 bars apart. -/
def dtQual (tolerance : ℚ) (p1 p2 : PPoint) : Bool :=
  decide (|p1.price - p2.price| / p1.price < tolerance ∧
    10 < (p2.index : ℤ) - (p1.index : ℤ))

/-- The pattern a qualifying pair of peaks produces. -/
def mkTopPattern (p : PPoint × PPoint) : Pattern :=
  ⟨"Double Top", (p.1.price + p.2.price) / 2, p.1.index, p.2.index, "BEARISH"⟩

/-- The pattern a qualifying pair of troughs produces. -/
def mkBottomPattern (p : PPoint × PPoint) : Pattern :=
  ⟨"Double Bottom", (p.1.price + p.2.price) / 2, p.1.index, p.2.index, "BULLISH"⟩

/-- Source `detectDoubleTopBottom(data, 50, 0.03)`: every qualifying pair of peaks
yields a Double Top, then every qualifying pair of troughs a Double Bottom. -/
def detectDoubleTopBottom (data : List Bar) (lookback : ℕ := 50)
    (tolerance : ℚ := 3 / 100) : List Pattern :=
  let peaks := dtPeaks data lookback
  let troughs := dtTroughs data lookback
  ((pairsAfter peaks).filter fun p => dtQual tolerance p.1 p.2).map mkTopPattern ++
    ((pairsAfter troughs).filter fun p => dtQual tolerance p.1 p.2).map mkBottomPattern

/-! ## `generateSignals` -/

/-- A discrete signal.  `confidence` is `none` for the two Bollinger-band
signals, which the source emits without a `confidence` property.  The
presentational `description`/`value` strings are not modelled. -/
structure Signal where
  type : String
  signal : String
  confidence : Option String
deriving DecidableEq

/-- The `indicators` object `generateSignals` receives.  Each field may be
absent (`none`), exactly as a caller-built object may omit properties; the
engine's own `calculateAllIndicators` supplies every field. -/
structure Indicators where
  sma20 : Option (List (Option ℚ)) := none
  ema9 : Option (List ℚ) := none
  ema20 : Option (List ℚ) := none
  ema50 : Option (List ℚ) := none
  rsi : Option (List (Option ℚ)) := none
  macd : Option MACDResult := none
  bb : Option BBResult := none
  vwap : Option (List ℚ) := none
  atr : Option (List (Option ℚ)) := none
  ttmSqueeze : Option (List (Option TTMEntry)) := none
  supportResistance : Option (List SRLevel) := none
  patterns : Option (List Pattern) := none

/-- Rule block 1 of `generateSignals` (enhanced RSI): gated on
`indicators.rsi && indicators.rsi[latestIndex] && indicators.macd`. -/
def rsiBlock (ind : Indicators) (latestIndex : ℤ) : List Signal :=
  match ind.rsi, ind.macd with
  | some rsiArr, some m =>
    let rsiV := jgetO rsiArr latestIndex
    if jTruthy rsiV then
      let rsi := jval rsiV
      let macd := jgetO m.macd latestIndex
      let macdSignal := jgetN m.signal latestIndex
      let prevMacd := jgetO m.macd (latestIndex - 1)
      if 70 < rsi then
        [⟨"RSI Overbought", "BEARISH",
          some (if jTruthy macd ∧ jTruthy prevMacd ∧ jval macd < jval prevMacd
            then "HIGH" else "MEDIUM")⟩]
      else if rsi < 30 then
        [⟨"RSI Oversold", "BULLISH",
          some (if jTruthy macd ∧ jTruthy macdSignal ∧ jval macdSignal < jval macd
            then "HIGH" else "MEDIUM")⟩]
      else if 50 < rsi then [⟨"RSI Bullish Zone", "BULLISH", some "LOW"⟩]
      else [⟨"RSI Bearish Zone", "BEARISH", some "LOW"⟩]
    else []
  | _, _ => []

/-- Rule block 2 of `generateSignals` (enhanced MACD): crossovers, then the
momentum-weakening check against the two previous MACD values. -/
def macdBlock (ind : Indicators) (latestIndex : ℤ) : List Signal :=
  match ind.macd with
  | none => []
  | some m =>
    let macdV := jgetO m.macd latestIndex
    let signalV := jgetN m.signal latestIndex
    if jTruthy macdV ∧ jTruthy signalV then
      let macd := jval macdV
      let signal := jval signalV
      let prevMacd := jgetO m.macd (latestIndex - 1)
      let prevSignal := jgetN m.signal (latestIndex - 1)
      let prev2Macd := jgetO m.macd (latestIndex - 2)
      if jTruthy prevMacd ∧ jTruthy prevSignal then
        if jval prevMacd ≤ jval prevSignal ∧ signal < macd then
          [⟨"MACD Bullish Crossover", "BULLISH", some "HIGH"⟩]
        else if jval prevSignal ≤ jval prevMacd ∧ macd < signal then
          [⟨"MACD Bearish Crossover", "BEARISH", some "HIGH"⟩]
        else if jTruthy prev2Macd ∧ signal < macd then
          if 0 < jval prevMacd - jval prev2Macd ∧
              macd - jval prevMacd < (jval prevMacd - jval prev2Macd) * (1 / 2) then
            [⟨"MACD Momentum Weakening", "CAUTION", some "MEDIUM"⟩]
          else []
        else []
      else []
    else []

open Classical in
/-- Rule block 3 of `generateSignals` (Bollinger bands): touch of the upper or
lower band; these two pushes carry no `confidence` property. -/
noncomputable def bbBlock (ind : Indicators) (latestIndex : ℤ) (price : ℚ) : List Signal :=
  match ind.bb with
  | none => []
  | some bb =>
    let upperV : Option ℝ := (jIdx bb.upper latestIndex).join
    let lowerV : Option ℝ := (jIdx bb.lower latestIndex).join
    if rTruthy upperV ∧ rTruthy lowerV then
      if upperV.getD 0 ≤ (price : ℝ) then [⟨"Bollinger Upper Band", "BEARISH", none⟩]
      else if (price : ℝ) ≤ lowerV.getD 0 then [⟨"Bollinger Lower Band", "BULLISH", none⟩]
      else []
    else []

/-- The recent-crossover scan: `for i = 1 .. min(5, latestIndex)`, true as soon
as `check(ema9[latestIndex-i], ema20[latestIndex-i])` holds. -/
def recentScan (e9 e20 : List ℚ) (latestIndex : ℤ)
    (check : Option ℚ → Option ℚ → Bool) : Bool :=
  (List.range' 1 (min 5 latestIndex).toNat).any fun i =>
    check (jgetN e9 (latestIndex - i)) (jgetN e20 (latestIndex - i))

/-- The Golden/Death-cross part of rule block 4, gated on
`prevEma9 && prevEma20` being truthy. -/
def crossPart (e9 e20 : List ℚ) (latestIndex : ℤ) : List Signal :=
  let ema9 := jgetN e9 latestIndex
  let ema20 := jgetN e20 latestIndex
  let prevEma9 := jgetN e9 (latestIndex - 1)
  let prevEma20 := jgetN e20 (latestIndex - 1)
  if jTruthy prevEma9 ∧ jTruthy prevEma20 then
    if jval prevEma9 ≤ jval prevEma20 ∧ jsGT ema9 ema20 then
      let recentCross := recentScan e9 e20 latestIndex fun a b => jsLE a b
      [⟨if recentCross then "Golden Cross (Recent)" else "Golden Cross Active",
        "BULLISH", some (if recentCross then "HIGH" else "MEDIUM")⟩]
    else if jval prevEma20 ≤ jval prevEma9 ∧ jsLT ema9 ema20 then
      let recentCross := recentScan e9 e20 latestIndex fun a b => jsLE b a
      [⟨if recentCross then "Death Cross (Recent)" else "Death Cross Active",
        "BEARISH", some (if recentCross then "HIGH" else "MEDIUM")⟩]
    else []
  else []

/-- The VWAP-zone part nested at the end of rule block 4, gated on
`indicators.vwap && indicators.vwap[latestIndex]`. -/
def vwapPart (ind : Indicators) (latestIndex : ℤ) (price : ℚ) : List Signal :=
  match ind.vwap with
  | none => []
  | some vw =>
    let vwapV := jgetN vw latestIndex
    if jTruthy vwapV then
      let vwapDistance := (price - jval vwapV) / jval vwapV * 100
      if 2 < vwapDistance then [⟨"VWAP Upper Zone", "CAUTION", some "MEDIUM"⟩]
      else if 0 < vwapDistance then [⟨"VWAP Bullish Zone", "BULLISH", some "MEDIUM"⟩]
      else if -2 < vwapDistance then [⟨"VWAP Support Zone", "NEUTRAL", some "LOW"⟩]
      else [⟨"VWAP Bounce Opportunity", "BULLISH", some "HIGH"⟩]
    else []

/-- Rule block 4 of `generateSignals` (enhanced EMA): the whole block — stack
alignment, Golden/Death cross, and the VWAP-zone analysis nested inside it —
is gated on `indicators.ema9 && indicators.ema20 && indicators.ema50`. -/
def emaBlock (ind : Indicators) (latestIndex : ℤ) (price : ℚ) : List Signal :=
  match ind.ema9, ind.ema20, ind.ema50 with
  | some e9, some e20, some e50 =>
    let ema9 := jgetN e9 latestIndex
    let ema20 := jgetN e20 latestIndex
    let ema50 := jgetN e50 latestIndex
    let stack :=
      if jsGT (some price) ema9 ∧ jsGT ema9 ema20 ∧ jsGT ema20 ema50 then
        [⟨"EMA Perfect Bullish Stack", "BULLISH", some "HIGH"⟩]
      else if jsLT (some price) ema9 ∧ jsLT ema9 ema20 ∧ jsLT ema20 ema50 then
        [⟨"EMA Perfect Bearish Stack", "BEARISH", some "HIGH"⟩]
      else []
    stack ++ crossPart e9 e20 latestIndex ++ vwapPart ind latestIndex price
  | _, _, _ => []

/-- Rule block 5 of `generateSignals` (TTM squeeze): squeeze state or breakout,
then the bar-colour signals for `lime` and `red`. -/
def ttmBlock (ind : Indicators) (latestIndex : ℤ) : List Signal :=
  match ind.ttmSqueeze with
  | none => []
  | some tt =>
    match (jIdx tt latestIndex).join with
    | none => []
    | some squeeze =>
      let prevSqueeze := (jIdx tt (latestIndex - 1)).join
      let statePart :=
        if squeeze.inSqueeze then [⟨"TTM Squeeze Active", "NEUTRAL", some "HIGH"⟩]
        else
          match prevSqueeze with
          | some ps =>
            if ps.inSqueeze then
              [⟨"TTM Squeeze Breakout",
                if 0 < squeeze.momentum then "BULLISH" else "BEARISH", some "HIGH"⟩]
            else []
          | none => []
      let colorPart :=
        if squeeze.barColor = "lime" then [⟨"TTM Green Bar", "BULLISH", some "HIGH"⟩]
        else if squeeze.barColor = "red" then [⟨"TTM Red Bar", "BEARISH", some "HIGH"⟩]
        else []
      statePart ++ colorPart

/-- Rule block 6 of `generateSignals` (support/resistance): one signal per
level within 1% of the current price. -/
def srBlock (ind : Indicators) (price : ℚ) : List Signal :=
  match ind.supportResistance with
  | none => []
  | some levels =>
    if 0 < levels.length then
      levels.flatMap fun level =>
        if |price - level.price| / level.price < 1 / 100 then
          if level.type = "support" then
            [⟨"At Support Level", "BULLISH",
              some (if 3 ≤ level.touches then "HIGH" else "MEDIUM")⟩]
          else
            [⟨"At Resistance Level", "BEARISH",
              some (if 3 ≤ level.touches then "HIGH" else "MEDIUM")⟩]
        else []
    else []

/-- Rule block 7 of `generateSignals` (patterns): one signal per pattern whose
end lies within the last 20 bars. -/
def patternBlock (ind : Indicators) (latestIndex : ℤ) : List Signal :=
  match ind.patterns with
  | none => []
  | some pats =>
    if 0 < pats.length then
      (pats.filter fun p => latestIndex - (p.endIndex : ℤ) < 20).map fun p =>
        ⟨p.type, p.signal, some "HIGH"⟩
    else []

/-- Source `generateSignals(data, indicators)`: the seven rule blocks in source
order, each appending to the signal list (none reads the list).  The source
dereferences `data[data.length - 1].close` unconditionally, so it has no
meaning for an empty `data`; the default bar below is never reached in any
statement about a nonempty series. -/
noncomputable def generateSignals (data : List Bar) (ind : Indicators) : List Signal :=
  let latest := (data.getLast?).getD default
  let latestIndex : ℤ := (data.length : ℤ) - 1
  let price := latest.close
  rsiBlock ind latestIndex ++ macdBlock ind latestIndex ++
    bbBlock ind latestIndex price ++ emaBlock ind latestIndex price ++
    ttmBlock ind latestIndex ++ srBlock ind price ++ patternBlock ind latestIndex

/-! ## `calculateSignalStrength` -/

/-- The strength verdict.  `netScore` is the absolute value the source
returns; the presentational `description` string is not modelled, and the
accumulated `totalWeight` of the source is dead (never returned). -/
structure StrengthResult where
  strength : String
  color : String
  bullishCount : ℕ
  bearishCount : ℕ
  highConfidenceCount : ℕ
  netScore : ℕ
  totalSignals : ℕ
deriving DecidableEq

/-- The confidence weight of one signal: HIGH = 3, MEDIUM = 2, otherwise 1. -/
def sigWeight (s : Signal) : ℕ :=
  if s.confidence = some "HIGH" then 3 else if s.confidence = some "MEDIUM" then 2 else 1

/-- Sum of weights of the BULLISH signals (`bullishCount` of the source). -/
def bullishWeight (signals : List Signal) : ℕ :=
  ((signals.filter fun s => s.signal = "BULLISH").map sigWeight).sum

/-- Sum of weights of the BEARISH signals (`bearishCount` of the source). -/
def bearishWeight (signals : List Signal) : ℕ :=
  ((signals.filter fun s => s.signal = "BEARISH").map sigWeight).sum

/-- Count of HIGH-confidence signals, direction-agnostic. -/
def highConfCount (signals : List Signal) : ℕ :=
  (signals.filter fun s => s.confidence = some "HIGH").length

/-- Source `calculateSignalStrength(signals)`: tiering by
`confirmationCount = max(bullishCount, bearishCount)` and
`highConfidenceCount`, the direction by the sign of
`netScore = bullishCount - bearishCount`. -/
def calculateSignalStrength (signals : List Signal) : StrengthResult :=
  let bullishCount := bullishWeight signals
  let bearishCount := bearishWeight signals
  let highConfidenceCount := highConfCount signals
  let netScore : ℤ := (bullishCount : ℤ) - (bearishCount : ℤ)
  let confirmationCount := max bullishCount bearishCount
  let base : StrengthResult :=
    { strength := "WAIT", color := "yellow", bullishCount := bullishCount,
      bearishCount := bearishCount, highConfidenceCount := highConfidenceCount,
      netScore := netScore.natAbs, totalSignals := signals.length }
  if (5 ≤ confirmationCount ∧ 2 ≤ highConfidenceCount) ∨ 7 ≤ confirmationCount then
    { base with strength := if 0 < netScore then "STRONG BUY" else "STRONG SELL",
                color := if 0 < netScore then "green" else "red" }
  else if (3 ≤ confirmationCount ∧ 1 ≤ highConfidenceCount) ∨ 4 ≤ confirmationCount then
    { base with strength := if 0 < netScore then "MODERATE BUY" else "MODERATE SELL",
                color := if 0 < netScore then "green" else "red" }
  else if 2 ≤ confirmationCount ∧ 2 ≤ netScore.natAbs then
    { base with strength := if 0 < netScore then "WEAK BUY" else "WEAK SELL",
                color := if 0 < netScore then "green" else "red" }
  else base

/-! ## `calculateAllIndicators` -/

/-- The indicator frame the engine builds when the input passes the length
guard (every field of the `indicators` object is then present). -/
structure AllInd where
  sma20 : List (Option ℚ)
  ema9 : List ℚ
  ema20 : List ℚ
  ema50 : List ℚ
  rsi : List (Option ℚ)
  macd : MACDResult
  bb : BBResult
  vwap : List ℚ
  atr : List (Option ℚ)
  ttmSqueeze : List (Option TTMEntry)
  supportResistance : List SRLevel
  patterns : List Pattern

/-- The frame as the `indicators` object `generateSignals` receives: every
field present. -/
def AllInd.view (ind : AllInd) : Indicators :=
  { sma20 := some ind.sma20, ema9 := some ind.ema9, ema20 := some ind.ema20,
    ema50 := some ind.ema50, rsi := some ind.rsi, macd := some ind.macd,
    bb := some ind.bb, vwap := some ind.vwap, atr := some ind.atr,
    ttmSqueeze := some ind.ttmSqueeze, supportResistance := some ind.supportResistance,
    patterns := some ind.patterns }

/-- The engine's result: `indicators = none` models the empty `{}` object of
the short-input guard `if (!data || data.length < 20) return {indicators: {},
signals: []}`. -/
structure AllResult where
  indicators : Option AllInd
  signals : List Signal

/-- Source `calculateAllIndicators(data)`: the length guard, then every indicator.
The close-price extraction `data.map(d => d.close)` feeds the EMAs, the SMA,
MACD — and `calculateRSI`, which therefore receives plain numbers
(`JSVal.num`), not the bar objects its body reads `.close` from. -/
noncomputable def calculateAllIndicators (data : List Bar) : AllResult :=
  if data.length < 20 then { indicators := none, signals := [] }
  else
    let closePrices := data.map Bar.close
    let indicators : AllInd :=
      { sma20 := calculateSMA closePrices 20
        ema9 := calculateEMA closePrices 9
        ema20 := calculateEMA closePrices 20
        ema50 := calculateEMA closePrices 50
        rsi := calculateRSI (closePrices.map JSVal.num) 14
        macd := calculateMACD closePrices 12 26 9
        bb := calculateBollingerBands data 20 2
        vwap := calculateVWAP data
        atr := calculateATR data 14
        ttmSqueeze := calculateTTMSqueeze data 20 2 20 (3 / 2)
        supportResistance := detectSupportResistance data 20 (1 / 50)
        patterns := detectDoubleTopBottom data 50 (3 / 100) }
    { indicators := some indicators,
      signals := generateSignals data indicators.view }

/-! ## Auxiliary definitions and concrete inputs used by the proofs -/

/-- A 16-bar series for the ATR witness: closes ramp upward one per bar. -/
def atrWitnessData : List Bar :=
  (List.range 16).map fun i => ⟨(100 : ℚ) + i + 1, (100 : ℚ) + i - 1, (100 : ℚ) + i, 10⟩

/-- Cumulative effective volume of a prefix. -/
def vSum (l : List Bar) : ℚ := (l.map effVolume).sum

/-- Cumulative volume-weighted typical price of a prefix. -/
def pvSum (l : List Bar) : ℚ := (l.map fun b => typicalPrice b * effVolume b).sum

/-- The tier of a strength string in the order STRONG > MODERATE > WEAK >
WAIT, direction-agnostic. -/
def tierRank (s : String) : ℕ :=
  if s = "STRONG BUY" ∨ s = "STRONG SELL" then 3
  else if s = "MODERATE BUY" ∨ s = "MODERATE SELL" then 2
  else if s = "WEAK BUY" ∨ s = "WEAK SELL" then 1
  else 0

/-- The tier as a function of the weighted confirmation count, the
high-confidence count and the absolute net score, mirroring the cascade of
`calculateSignalStrength`. -/
def tierOf (confirmationCount highConfidenceCount netAbs : ℕ) : ℕ :=
  if (5 ≤ confirmationCount ∧ 2 ≤ highConfidenceCount) ∨ 7 ≤ confirmationCount then 3
  else if (3 ≤ confirmationCount ∧ 1 ≤ highConfidenceCount) ∨ 4 ≤ confirmationCount then 2
  else if 2 ≤ confirmationCount ∧ 2 ≤ netAbs then 1
  else 0

/-- A 20-bar series of strictly falling closes (`100 - i`), used as the C3
witness and the C2 failing input: the classical RSI of a losses-only series
is 0, yet the engine reports 100. -/
def fallingData : List Bar :=
  [⟨101, 99, 100, 10⟩, ⟨100, 98, 99, 10⟩, ⟨99, 97, 98, 10⟩, ⟨98, 96, 97, 10⟩,
   ⟨97, 95, 96, 10⟩, ⟨96, 94, 95, 10⟩, ⟨95, 93, 94, 10⟩, ⟨94, 92, 93, 10⟩,
   ⟨93, 91, 92, 10⟩, ⟨92, 90, 91, 10⟩, ⟨91, 89, 90, 10⟩, ⟨90, 88, 89, 10⟩,
   ⟨89, 87, 88, 10⟩, ⟨88, 86, 87, 10⟩, ⟨87, 85, 86, 10⟩, ⟨86, 84, 85, 10⟩,
   ⟨85, 83, 84, 10⟩, ⟨84, 82, 83, 10⟩, ⟨83, 81, 82, 10⟩, ⟨82, 80, 81, 10⟩]

/-- An `indicators` object carrying only a VWAP series. -/
def vwapOnlyInd : Indicators := { vwap := some [50] }

/-- The same object with EMA series added; the VWAP field is unchanged. -/
def vwapEmaInd : Indicators :=
  { vwap := some [50], ema9 := some [40], ema20 := some [40], ema50 := some [40] }

/-- The 16-bar series of the C10 witness: peaks of height 110 and 112 at
indices 2 and 13 (lookback 2), 11 bars apart, prices within 3%. -/
def doubleTopData : List Bar :=
  [⟨100, 99, 99, 1⟩, ⟨101, 100, 100, 1⟩, ⟨110, 104, 105, 1⟩, ⟨90, 89, 89, 1⟩,
   ⟨91, 90, 90, 1⟩, ⟨92, 91, 91, 1⟩, ⟨93, 92, 92, 1⟩, ⟨94, 93, 93, 1⟩,
   ⟨95, 94, 94, 1⟩, ⟨96, 95, 95, 1⟩, ⟨97, 96, 96, 1⟩, ⟨98, 97, 97, 1⟩,
   ⟨99, 98, 98, 1⟩, ⟨112, 105, 106, 1⟩, ⟨100, 99, 99, 1⟩, ⟨99, 98, 98, 1⟩]

/-- The 16-bar series of the C10 trough-side witness: troughs of depth 80 and
81 at indices 2 and 13 (lookback 2), 11 bars apart, prices within 3%. -/
def doubleBottomData : List Bar :=
  [⟨102, 100, 101, 1⟩, ⟨101, 99, 100, 1⟩, ⟨82, 80, 81, 1⟩, ⟨97, 95, 96, 1⟩,
   ⟨96, 94, 95, 1⟩, ⟨95, 93, 94, 1⟩, ⟨94, 92, 93, 1⟩, ⟨93, 91, 92, 1⟩,
   ⟨92, 90, 91, 1⟩, ⟨91, 89, 90, 1⟩, ⟨90, 88, 89, 1⟩, ⟨89, 87, 88, 1⟩,
   ⟨88, 86, 87, 1⟩, ⟨83, 81, 82, 1⟩, ⟨97, 95, 96, 1⟩, ⟨98, 96, 97, 1⟩]

/-- A 22-bar series: constant 100 closes, a drop to 80 at index 19, and a
recovery to 90 from index 20 — so the squeeze momentum at indices 19 and 20
is negative and rising (recovering toward zero). -/
def squeezeData : List Bar :=
  [⟨101, 99, 100, 5⟩, ⟨101, 99, 100, 5⟩, ⟨101, 99, 100, 5⟩, ⟨101, 99, 100, 5⟩,
   ⟨101, 99, 100, 5⟩, ⟨101, 99, 100, 5⟩, ⟨101, 99, 100, 5⟩, ⟨101, 99, 100, 5⟩,
   ⟨101, 99, 100, 5⟩, ⟨101, 99, 100, 5⟩, ⟨101, 99, 100, 5⟩, ⟨101, 99, 100, 5⟩,
   ⟨101, 99, 100, 5⟩, ⟨101, 99, 100, 5⟩, ⟨101, 99, 100, 5⟩, ⟨101, 99, 100, 5⟩,
   ⟨101, 99, 100, 5⟩, ⟨101, 99, 100, 5⟩, ⟨101, 99, 100, 5⟩, ⟨81, 79, 80, 5⟩,
   ⟨91, 89, 90, 5⟩, ⟨91, 89, 90, 5⟩]

/-- The entry the stateful TTM loop holds after processing index `start + k`,
starting from state `prev`. -/
def ttmIterate (step : ℕ → Option TTMEntry → Option TTMEntry) (start : ℕ)
    (prev : Option TTMEntry) : ℕ → Option TTMEntry
  | 0 => step start prev
  | k + 1 => step (start + (k + 1)) (ttmIterate step start prev k)
/-! ## Proof development: EMA (C9) -/

lemma emaAux_length (k p : ℚ) (l : List ℚ) : (emaAux k p l).length = l.length := by
  induction l generalizing p with
  | nil => rfl
  | cons v vs ih => simp [emaAux, ih]

lemma emaAux_get_succ (k : ℚ) :
    ∀ (l : List ℚ) (p : ℚ) (i : ℕ) (v e : ℚ),
      l.get? (i + 1) = some v → (emaAux k p l).get? i = some e →
      (emaAux k p l).get? (i + 1) = some (v * k + e * (1 - k))
  | [], _, _, _, _, hv, _ => by simp at hv
  | w :: ws, p, 0, v, e, hv, he => by
    simp only [emaAux, List.get?] at hv he ⊢
    cases ws with
    | nil => simp at hv
    | cons u us =>
      simp only [List.get?] at hv
      cases hv
      cases he
      simp [emaAux]
  | w :: ws, p, i + 1, v, e, hv, he => by
    simp only [emaAux, List.get?] at hv he ⊢
    exact emaAux_get_succ k ws (w * k + p * (1 - k)) i v e hv he

/-- C9: `calculateEMA` returns a sequence of the input's length with no
missing entries, seeded with the first value, and satisfying the EMA
recurrence with multiplier `2/(period+1)`. -/
theorem calculateEMA_spec (values : List ℚ) (period : ℕ)
    (hne : values ≠ []) (hp : 1 ≤ period) :
    (calculateEMA values period).length = values.length ∧
    (calculateEMA values period).head? = values.head? ∧
    (∀ i : ℕ, i < values.length → ((calculateEMA values period).get? i).isSome) ∧
    (∀ i : ℕ, 1 ≤ i → i < values.length → ∀ v e : ℚ,
      values.get? i = some v →
      (calculateEMA values period).get? (i - 1) = some e →
      (calculateEMA values period).get? i =
        some (v * (2 / ((period : ℚ) + 1)) + e * (1 - 2 / ((period : ℚ) + 1)))) := by
  match values with
  | [] => exact absurd rfl hne
  | x :: xs =>
    set k : ℚ := 2 / ((period : ℚ) + 1) with hk
    refine ⟨by simp [calculateEMA, emaAux_length], by simp [calculateEMA], ?_, ?_⟩
    · intro i hi
      have hlen : i < (calculateEMA (x :: xs) period).length := by
        simpa [calculateEMA, emaAux_length] using hi
      rw [List.get?_eq_get hlen]
      rfl
    · intro i hi1 hilen v e hv he
      match i, hi1 with
      | 1, _ =>
        simp only [calculateEMA, List.get?] at hv he ⊢
        cases xs with
        | nil => simp at hv
        | cons u us =>
          simp only [List.get?] at hv
          cases hv
          cases he
          simp [emaAux]
      | (j + 2), _ =>
        simp only [calculateEMA, List.get?, Nat.add_sub_cancel] at hv he ⊢
        exact emaAux_get_succ k xs x j v e hv he

/-- C9 witness: the specification instantiated at the concrete series
`[4, 10]` with period 3 (`k = 1/2`). -/
theorem calculateEMA_spec_witness :
    (calculateEMA [4, 10] 3).length = ([4, 10] : List ℚ).length ∧
    (calculateEMA [4, 10] 3).head? = ([4, 10] : List ℚ).head? ∧
    (∀ i : ℕ, i < ([4, 10] : List ℚ).length → ((calculateEMA [4, 10] 3).get? i).isSome) ∧
    (∀ i : ℕ, 1 ≤ i → i < ([4, 10] : List ℚ).length → ∀ v e : ℚ,
      ([4, 10] : List ℚ).get? i = some v →
      (calculateEMA [4, 10] 3).get? (i - 1) = some e →
      (calculateEMA [4, 10] 3).get? i =
        some (v * (2 / ((3 : ℕ) + 1 : ℚ)) + e * (1 - 2 / ((3 : ℕ) + 1 : ℚ)))) :=
  calculateEMA_spec [4, 10] 3 (by decide) (by decide)

/-! ## ATR (C7) -/

lemma trueRanges_length (data : List Bar) :
    (trueRanges data).length = data.length - 1 := by
  simp [trueRanges]

lemma trueRanges_get (data : List Bar) (j : ℕ) (p c : Bar)
    (hp : data.get? j = some p) (hc : data.get? (j + 1) = some c) :
    (trueRanges data).get? j = some (trueRange p c) := by
  induction data generalizing j with
  | nil => simp at hp
  | cons b rest ih =>
    cases j with
    | zero =>
      cases rest with
      | nil => simp at hc
      | cons b2 r2 =>
        simp only [List.get?] at hp hc
        cases hp
        cases hc
        rfl
    | succ j' =>
      simp only [List.get?] at hp hc
      cases rest with
      | nil => simp at hp
      | cons b2 r2 =>
        have := ih j' hp hc
        simpa [trueRanges] using this

lemma range_map_get? {α : Type} (f : ℕ → α) (n j : ℕ) (hj : j < n) :
    ((List.range n).map f).get? j = some (f j) := by
  rw [List.get?_map, List.get?_range hj]
  rfl

/-- C7 (amended): `calculateATR` returns one entry per bar from index 1 on —
length `n - 1`, not `n` — `null` until `period` true ranges exist, then the
mean of the trailing `period` true ranges, the true range of a bar being
`max(high - low, |high - prevClose|, |low - prevClose|)`. -/
theorem calculateATR_spec (data : List Bar) (period : ℕ) (hp : 1 ≤ period) :
    (calculateATR data period).length = data.length - 1 ∧
    (∀ j : ℕ, ∀ p c : Bar, data.get? j = some p → data.get? (j + 1) = some c →
      (trueRanges data).get? j =
        some (max (c.high - c.low) (max |c.high - p.close| |c.low - p.close|))) ∧
    (∀ j : ℕ, j < data.length - 1 → j + 1 < period →
      (calculateATR data period).get? j = some none) ∧
    (∀ j : ℕ, j < data.length - 1 → period ≤ j + 1 →
      (calculateATR data period).get? j =
        some (some ((((trueRanges data).take (j + 1)).drop (j + 1 - period)).sum / period)) ∧
      (((trueRanges data).take (j + 1)).drop (j + 1 - period)).length = period) := by
  refine ⟨by simp [calculateATR, trueRanges_length], ?_, ?_, ?_⟩
  · intro j p c hp' hc
    exact trueRanges_get data j p c hp' hc
  · intro j hj hjp
    have hj' : j < (trueRanges data).length := by rwa [trueRanges_length]
    rw [calculateATR, range_map_get? _ _ _ hj']
    rw [if_neg (by omega)]
  · intro j hj hjp
    have hj' : j < (trueRanges data).length := by rwa [trueRanges_length]
    constructor
    · rw [calculateATR, range_map_get? _ _ _ hj']
      rw [if_pos hjp]
    · rw [List.length_drop, List.length_take]
      omega

/-- C7 counterexample to the claim as stated: a 3-bar series yields an ATR
sequence of length 2, not 3 — the output is not aligned one-per-bar with the
input. -/
theorem calculateATR_length_counterexample :
    (calculateATR [⟨11, 9, 10, 5⟩, ⟨12, 10, 11, 5⟩, ⟨13, 11, 12, 5⟩] 14).length = 2 ∧
    ([⟨11, 9, 10, 5⟩, ⟨12, 10, 11, 5⟩, ⟨13, 11, 12, 5⟩] : List Bar).length = 3 := by
  decide

/-- C7 witness: the amended ATR specification applied to a concrete 16-bar
series with the default period 14. -/
theorem calculateATR_spec_witness :
    (1 ≤ 14 ∧ (calculateATR atrWitnessData 14).length = atrWitnessData.length - 1) ∧
    (calculateATR atrWitnessData 14).get? 0 = some none ∧
    (calculateATR atrWitnessData 14).get? 13 =
      some (some ((((trueRanges atrWitnessData).take 14).drop 0).sum / 14)) := by
  refine ⟨⟨by decide, (calculateATR_spec atrWitnessData 14 (by decide)).1⟩, ?_, ?_⟩
  · exact ((calculateATR_spec atrWitnessData 14 (by decide)).2.2.1 0 (by decide) (by decide))
  · exact ((calculateATR_spec atrWitnessData 14 (by decide)).2.2.2 13 (by decide) (by decide)).1

/-! ## VWAP (C8) -/

lemma vwapAux_length (l : List Bar) : ∀ cv cpv : ℚ, (vwapAux l cv cpv).length = l.length := by
  induction l with
  | nil => intro cv cpv; rfl
  | cons b rest ih => intro cv cpv; simp [vwapAux, ih]

lemma vwapAux_get (l : List Bar) :
    ∀ (cv cpv : ℚ) (i : ℕ), i < l.length →
      (vwapAux l cv cpv).get? i =
        some ((cpv + pvSum (l.take (i + 1))) / (cv + vSum (l.take (i + 1)))) := by
  induction l with
  | nil => intro cv cpv i hi; simp at hi
  | cons b rest ih =>
    intro cv cpv i hi
    cases i with
    | zero => simp [vwapAux, pvSum, vSum]
    | succ j =>
      have hj : j < rest.length := by simpa using hi
      have := ih (cv + effVolume b) (cpv + typicalPrice b * effVolume b) j hj
      simp only [vwapAux, List.get?, this, pvSum, vSum, List.take, List.map, List.sum_cons]
      ring_nf

lemma effVolume_pos (b : Bar) (h : 0 ≤ b.volume) : 0 < effVolume b := by
  unfold effVolume
  split
  · norm_num
  · rename_i hz
    exact lt_of_le_of_ne h (Ne.symm hz)

lemma vSum_pos (l : List Bar) (hne : l ≠ []) (h : ∀ b ∈ l, 0 ≤ b.volume) : 0 < vSum l := by
  induction l with
  | nil => exact absurd rfl hne
  | cons b rest ih =>
    have hb := effVolume_pos b (h b (by simp))
    cases rest with
    | nil => simpa [vSum] using hb
    | cons c r =>
      have := ih (by simp) (fun x hx => h x (by simp [hx]))
      simp only [vSum, List.map, List.sum_cons] at this ⊢
      linarith

lemma pvSum_lower (l : List Bar) (m : ℚ) (hv : ∀ b ∈ l, 0 ≤ b.volume)
    (hm : ∀ b ∈ l, m ≤ typicalPrice b) : m * vSum l ≤ pvSum l := by
  induction l with
  | nil => simp [vSum, pvSum]
  | cons b rest ih =>
    have h1 : m ≤ typicalPrice b := hm b (by simp)
    have h2 : 0 < effVolume b := effVolume_pos b (hv b (by simp))
    have h3 := ih (fun x hx => hv x (by simp [hx])) (fun x hx => hm x (by simp [hx]))
    simp only [vSum, pvSum, List.map, List.sum_cons] at h3 ⊢
    nlinarith

lemma pvSum_upper (l : List Bar) (M : ℚ) (hv : ∀ b ∈ l, 0 ≤ b.volume)
    (hM : ∀ b ∈ l, typicalPrice b ≤ M) : pvSum l ≤ M * vSum l := by
  induction l with
  | nil => simp [vSum, pvSum]
  | cons b rest ih =>
    have h1 : typicalPrice b ≤ M := hM b (by simp)
    have h2 : 0 < effVolume b := effVolume_pos b (hv b (by simp))
    have h3 := ih (fun x hx => hv x (by simp [hx])) (fun x hx => hM x (by simp [hx]))
    simp only [vSum, pvSum, List.map, List.sum_cons] at h3 ⊢
    nlinarith

lemma foldl_min_le (l : List ℚ) : ∀ a : ℚ, l.foldl min a ≤ a ∧ ∀ x ∈ l, l.foldl min a ≤ x := by
  induction l with
  | nil => intro a; simp
  | cons b bs ih =>
    intro a
    have h := ih (min a b)
    refine ⟨le_trans h.1 (min_le_left a b), ?_⟩
    intro x hx
    rcases List.mem_cons.1 hx with rfl | hx'
    · exact le_trans h.1 (min_le_right a x)
    · exact h.2 x hx'

lemma foldl_max_ge (l : List ℚ) : ∀ a : ℚ, a ≤ l.foldl max a ∧ ∀ x ∈ l, x ≤ l.foldl max a := by
  induction l with
  | nil => intro a; simp
  | cons b bs ih =>
    intro a
    have h := ih (max a b)
    refine ⟨le_trans (le_max_left a b) h.1, ?_⟩
    intro x hx
    rcases List.mem_cons.1 hx with rfl | hx'
    · exact le_trans (le_max_right a x) h.1
    · exact h.2 x hx'

lemma min?_le_mem (l : List ℚ) (m : ℚ) (h : l.min? = some m) : ∀ x ∈ l, m ≤ x := by
  cases l with
  | nil => simp at h
  | cons a as =>
    rw [List.min?_cons'] at h
    cases h
    intro x hx
    rcases List.mem_cons.1 hx with rfl | hx'
    · exact (foldl_min_le as x).1
    · exact (foldl_min_le as a).2 x hx'

lemma le_max?_mem (l : List ℚ) (M : ℚ) (h : l.max? = some M) : ∀ x ∈ l, x ≤ M := by
  cases l with
  | nil => simp at h
  | cons a as =>
    rw [List.max?_cons'] at h
    cases h
    intro x hx
    rcases List.mem_cons.1 hx with rfl | hx'
    · exact (foldl_max_ge as x).1
    · exact (foldl_max_ge as a).2 x hx'

/-- C8: `calculateVWAP` is defined at every index (output length equals input
length; the zero-volume default keeps the denominator positive), and each
value lies between the running minimum and the running maximum of the typical
prices observed so far. -/
theorem calculateVWAP_spec (data : List Bar) (hvol : ∀ b ∈ data, 0 ≤ b.volume) :
    (calculateVWAP data).length = data.length ∧
    ∀ i : ℕ, i < data.length → ∀ q : ℚ, (calculateVWAP data).get? i = some q →
      ∀ m M : ℚ,
        ((data.take (i + 1)).map typicalPrice).min? = some m →
        ((data.take (i + 1)).map typicalPrice).max? = some M →
        m ≤ q ∧ q ≤ M := by
  refine ⟨by simp [calculateVWAP, vwapAux_length], ?_⟩
  intro i hi q hq m M hm hM
  have hkey := vwapAux_get data 0 0 i hi
  rw [calculateVWAP] at hq
  rw [hq] at hkey
  have hqe : q = pvSum (data.take (i + 1)) / vSum (data.take (i + 1)) := by
    have := Option.some.inj hkey
    simpa using this
  set T := data.take (i + 1) with hT
  have hvT : ∀ b ∈ T, 0 ≤ b.volume := fun b hb => hvol b (List.mem_of_mem_take hb)
  have hTne : T ≠ [] := by
    have : T.length = min (i + 1) data.length := by simp [hT]
    intro hnil
    rw [hnil] at this
    simp at this
    omega
  have hpos : 0 < vSum T := vSum_pos T hTne hvT
  have hmB : ∀ b ∈ T, m ≤ typicalPrice b := fun b hb =>
    min?_le_mem _ m hm (typicalPrice b) (List.mem_map_of_mem typicalPrice hb)
  have hMB : ∀ b ∈ T, typicalPrice b ≤ M := fun b hb =>
    le_max?_mem _ M hM (typicalPrice b) (List.mem_map_of_mem typicalPrice hb)
  have h1 : m * vSum T ≤ pvSum T := pvSum_lower T m hvT hmB
  have h2 : pvSum T ≤ M * vSum T := pvSum_upper T M hvT hMB
  subst hqe
  constructor
  · rw [le_div_iff hpos]
    exact h1
  · rw [div_le_iff hpos]
    exact h2

/-- C8 witness: the VWAP bound at a concrete two-bar series whose first bar
has zero volume (exercising the `volume || 1` default). -/
theorem calculateVWAP_spec_witness :
    (∀ b ∈ ([⟨12, 8, 10, 0⟩, ⟨22, 18, 20, 4⟩] : List Bar), 0 ≤ b.volume) ∧
    (calculateVWAP [⟨12, 8, 10, 0⟩, ⟨22, 18, 20, 4⟩]).length = 2 ∧
    (10 : ℚ) ≤ 18 ∧ (18 : ℚ) ≤ 20 := by
  have h := calculateVWAP_spec [⟨12, 8, 10, 0⟩, ⟨22, 18, 20, 4⟩] (by decide)
  refine ⟨by decide, h.1, ?_⟩
  refine h.2 1 (by decide) 18 ?_ 10 20 ?_ ?_
  · show (vwapAux _ 0 0).get? 1 = _
    norm_num [vwapAux, typicalPrice, effVolume]
  · norm_num [List.min?_cons', typicalPrice]
  · norm_num [List.max?_cons', typicalPrice]

/-! ## Signal strength (C5) -/

lemma tierRank_strength (signals : List Signal) :
    tierRank (calculateSignalStrength signals).strength =
      tierOf (max (bullishWeight signals) (bearishWeight signals))
        (highConfCount signals)
        (((bullishWeight signals : ℤ) - (bearishWeight signals : ℤ)).natAbs) := by
  simp only [calculateSignalStrength, tierOf]
  split_ifs with h1 h2 h3 h4 h5 h6 <;> simp [tierRank]

lemma netScore_strength (signals : List Signal) :
    (calculateSignalStrength signals).netScore =
      (((bullishWeight signals : ℤ) - (bearishWeight signals : ℤ))).natAbs := by
  simp only [calculateSignalStrength]
  split_ifs <;> rfl

/-- C5: the tier is monotone in the weighted confirmation count when the
high-confidence count and the (absolute) net score agree. -/
theorem calculateSignalStrength_monotone (s1 s2 : List Signal)
    (hH : highConfCount s1 = highConfCount s2)
    (hN : (calculateSignalStrength s1).netScore = (calculateSignalStrength s2).netScore)
    (hC : max (bullishWeight s2) (bearishWeight s2) ≤
      max (bullishWeight s1) (bearishWeight s1)) :
    tierRank (calculateSignalStrength s2).strength ≤
      tierRank (calculateSignalStrength s1).strength := by
  rw [tierRank_strength, tierRank_strength]
  rw [netScore_strength, netScore_strength] at hN
  rw [hH, hN]
  unfold tierOf
  split_ifs <;> omega

/-- C5 witness: two low-confidence opposing signals against the empty list
(equal high-confidence count 0, equal net score 0, larger confirmation
count). -/
theorem calculateSignalStrength_monotone_witness :
    highConfCount [⟨"RSI Bullish Zone", "BULLISH", some "LOW"⟩,
        ⟨"RSI Bearish Zone", "BEARISH", some "LOW"⟩] = highConfCount [] ∧
    (calculateSignalStrength [⟨"RSI Bullish Zone", "BULLISH", some "LOW"⟩,
        ⟨"RSI Bearish Zone", "BEARISH", some "LOW"⟩]).netScore =
      (calculateSignalStrength []).netScore ∧
    tierRank (calculateSignalStrength []).strength ≤
      tierRank (calculateSignalStrength [⟨"RSI Bullish Zone", "BULLISH", some "LOW"⟩,
        ⟨"RSI Bearish Zone", "BEARISH", some "LOW"⟩]).strength := by
  refine ⟨by decide, ?_, ?_⟩
  · rw [netScore_strength, netScore_strength]
    decide
  · exact calculateSignalStrength_monotone _ []
      (by decide) (by rw [netScore_strength, netScore_strength]; decide) (by decide)

/-! ## Engine RSI (C3, C2) -/

lemma rsiChanges_num (cs : List ℚ) :
    rsiChanges (cs.map JSVal.num) = List.replicate (cs.length - 1) none := by
  rw [List.eq_replicate_iff]
  constructor
  · simp [rsiChanges]
  · intro b hb
    rcases List.mem_map.1 hb with ⟨p, hp, rfl⟩
    have h1 := (List.of_mem_zip hp).1
    have h2 := (List.of_mem_zip hp).2
    rw [← List.map_drop] at h2
    obtain ⟨x, -, h1e⟩ := List.mem_map.1 h1
    obtain ⟨y, -, h2e⟩ := List.mem_map.1 h2
    rw [← h1e, ← h2e]
    rfl

/-- On an input of plain numbers every `.close` read is `undefined`, every
change is NaN, every recorded gain and loss is `0`, so `avgLoss` is `0` and
the RSI is `100` from index `period` on. -/
lemma calculateRSI_num (cs : List ℚ) (period : ℕ) :
    (calculateRSI (cs.map JSVal.num) period).length = cs.length ∧
    (∀ i : ℕ, i < cs.length → i < period →
      (calculateRSI (cs.map JSVal.num) period).get? i = some none) ∧
    (∀ i : ℕ, i < cs.length → period ≤ i →
      (calculateRSI (cs.map JSVal.num) period).get? i = some (some 100)) := by
  have hch : rsiChanges (cs.map JSVal.num) = List.replicate (cs.length - 1) none :=
    rsiChanges_num cs
  refine ⟨by simp [calculateRSI], ?_, ?_⟩
  · intro i hi hip
    have hi' : i < (cs.map JSVal.num).length := by simpa using hi
    rw [calculateRSI]
    simp only
    rw [range_map_get? _ _ _ hi']
    rw [if_pos hip]
  · intro i hi hip
    have hi' : i < (cs.map JSVal.num).length := by simpa using hi
    rw [calculateRSI]
    simp only
    rw [range_map_get? _ _ _ hi']
    rw [if_neg (by omega)]
    rw [hch]
    have hz : ∀ n : ℕ, (List.replicate n (none : Option ℚ)).map rsiLoss =
        List.replicate n 0 := by
      intro n
      simp [List.map_replicate, rsiLoss]
    rw [hz, List.drop_replicate, List.take_replicate]
    simp

/-- C3: whatever the close prices, the engine's `rsi` sequence is `null`
before index 14 and exactly `100` from index 14 on, because
`calculateAllIndicators` passes `calculateRSI` an array of plain numbers
whose `.close` reads are all `undefined`. -/
theorem calculateAllIndicators_rsi_const (data : List Bar) (h : 20 ≤ data.length) :
    ∀ ind : AllInd, (calculateAllIndicators data).indicators = some ind →
      ind.rsi.length = data.length ∧
      (∀ i : ℕ, i < 14 → i < data.length → ind.rsi.get? i = some none) ∧
      (∀ i : ℕ, 14 ≤ i → i < data.length → ind.rsi.get? i = some (some 100)) := by
  intro ind hind
  unfold calculateAllIndicators at hind
  rw [if_neg (by omega)] at hind
  simp only [Option.some.injEq] at hind
  have hrsi : ind.rsi = calculateRSI ((data.map Bar.close).map JSVal.num) 14 := by
    rw [← hind]
  have hkey := calculateRSI_num (data.map Bar.close) 14
  rw [hrsi]
  refine ⟨by simpa using hkey.1, ?_, ?_⟩
  · intro i hi hilen
    exact hkey.2.1 i (by simpa using hilen) hi
  · intro i hi hilen
    exact hkey.2.2 i (by simpa using hilen) hi

/-- C3 witness: the constant-100 behaviour at the concrete falling series. -/
theorem calculateAllIndicators_rsi_const_witness :
    20 ≤ fallingData.length ∧
    ∀ ind : AllInd, (calculateAllIndicators fallingData).indicators = some ind →
      ind.rsi.length = fallingData.length ∧
      (∀ i : ℕ, i < 14 → i < fallingData.length → ind.rsi.get? i = some none) ∧
      (∀ i : ℕ, 14 ≤ i → i < fallingData.length → ind.rsi.get? i = some (some 100)) :=
  ⟨by decide, calculateAllIndicators_rsi_const fallingData (by decide)⟩

/-- C2: at the falling series the engine reports RSI `100` at index 19 —
`calculateAllIndicators` hands `calculateRSI` plain numbers — while the same
`calculateRSI` applied to the bar objects its body expects (spec formula:
every delta is a loss, `avgGain = 0`, `avgLoss = 1`) yields `0`. -/
theorem calculateRSI_engine_mismatch :
    (∀ ind : AllInd, (calculateAllIndicators fallingData).indicators = some ind →
      ind.rsi.get? 19 = some (some 100)) ∧
    (calculateRSI (fallingData.map JSVal.bar) 14).get? 19 = some (some 0) := by
  constructor
  · intro ind hind
    unfold calculateAllIndicators at hind
    rw [if_neg (by decide)] at hind
    simp only [Option.some.injEq] at hind
    have hrsi : ind.rsi = calculateRSI ((fallingData.map Bar.close).map JSVal.num) 14 := by
      rw [← hind]
    rw [hrsi]
    exact (calculateRSI_num (fallingData.map Bar.close) 14).2.2 19 (by decide) (by omega)
  · have h19 : 19 < (fallingData.map JSVal.bar).length := by decide
    rw [calculateRSI]
    simp only
    rw [range_map_get? _ _ _ h19]
    rw [if_neg (by omega)]
    norm_num [fallingData, rsiChanges, jsSub, JSVal.closeField, rsiGain, rsiLoss]

/-! ## Engine guard (C6) -/

/-- C6 (amended): for any series shorter than 20 bars — empty or not — the
engine returns the empty indicator object and an empty signal list (no
per-index partial results, no failure); for 20 bars or more the full
indicator frame is present.  No timestamp is ever examined: a `Bar` carries
none into any computation. -/
theorem calculateAllIndicators_guard (data : List Bar) :
    (data.length < 20 → calculateAllIndicators data = ⟨none, []⟩) ∧
    (20 ≤ data.length → ((calculateAllIndicators data).indicators).isSome) := by
  constructor
  · intro h
    unfold calculateAllIndicators
    rw [if_pos h]
  · intro h
    unfold calculateAllIndicators
    rw [if_neg (by omega)]
    rfl

/-- C6 counterexample to the claim as stated: a nonempty well-formed 5-bar
series gets no per-index "no value" indicator sequences at all — the engine
returns the empty indicator object and an empty signal list. -/
theorem calculateAllIndicators_short_counterexample :
    ([⟨11, 9, 10, 5⟩, ⟨12, 10, 11, 5⟩, ⟨13, 11, 12, 5⟩, ⟨14, 12, 13, 5⟩,
        ⟨15, 13, 14, 5⟩] : List Bar) ≠ [] ∧
    calculateAllIndicators
      [⟨11, 9, 10, 5⟩, ⟨12, 10, 11, 5⟩, ⟨13, 11, 12, 5⟩, ⟨14, 12, 13, 5⟩,
        ⟨15, 13, 14, 5⟩] = ⟨none, []⟩ := by
  constructor
  · decide
  · unfold calculateAllIndicators
    rw [if_pos (by decide)]

/-- C6 witness: the amended guard behaviour applied at a concrete 3-bar
series. -/
theorem calculateAllIndicators_guard_witness :
    calculateAllIndicators [⟨11, 9, 10, 5⟩, ⟨12, 10, 11, 5⟩, ⟨13, 11, 12, 5⟩] =
      ⟨none, []⟩ :=
  (calculateAllIndicators_guard _).1 (by decide)

/-! ## Signal generator structure (C4) -/

lemma rsiBlock_length (ind : Indicators) (L : ℤ) : (rsiBlock ind L).length ≤ 1 := by
  unfold rsiBlock
  split
  · dsimp only
    split_ifs <;> simp
  · simp

lemma macdBlock_length (ind : Indicators) (L : ℤ) : (macdBlock ind L).length ≤ 1 := by
  unfold macdBlock
  split
  · simp
  · dsimp only
    split_ifs <;> simp

lemma bbBlock_length (ind : Indicators) (L : ℤ) (price : ℚ) :
    (bbBlock ind L price).length ≤ 1 := by
  unfold bbBlock
  split
  · simp
  · dsimp only
    split_ifs <;> simp

lemma ttmBlock_length (ind : Indicators) (L : ℤ) : (ttmBlock ind L).length ≤ 2 := by
  unfold ttmBlock
  split
  · simp
  · split
    · simp
    · dsimp only
      split_ifs <;> (try split) <;> (try split_ifs) <;> simp

lemma emaBlock_absent (ind : Indicators) (L : ℤ) (price : ℚ)
    (h : ind.ema9 = none ∨ ind.ema20 = none ∨ ind.ema50 = none) :
    emaBlock ind L price = [] := by
  unfold emaBlock
  split
  · rename_i e9 e20 e50 heq
    rcases h with h | h | h <;> simp_all
  · rfl

lemma vwapPart_none (ind : Indicators) (L : ℤ) (price : ℚ) (h : ind.vwap = none) :
    vwapPart ind L price = [] := by
  unfold vwapPart
  rw [h]

lemma vwapPart_some_length (ind : Indicators) (L : ℤ) (price : ℚ) (vw : List ℚ)
    (h : ind.vwap = some vw) :
    (vwapPart ind L price).length = if jTruthy (jgetN vw L) then 1 else 0 := by
  unfold vwapPart
  rw [h]
  dsimp only
  split_ifs with h1 h2 h3 h4 <;> simp_all

/-- C4 (amended): `generateSignals` is the concatenation of the per-rule
blocks in catalogue order (no rule reads the signals already emitted); the
RSI, MACD and Bollinger blocks each append at most one signal and the TTM
block at most two — but the VWAP-zone rule is nested inside the EMA block's
gate: with any of `ema9`/`ema20`/`ema50` absent the whole EMA block,
VWAP-zone rule included, emits nothing, while whenever the gate passes the
VWAP-zone rule appends exactly one signal iff `vwap[latestIndex]` is
truthy. -/
theorem generateSignals_structure (data : List Bar) (ind : Indicators) :
    generateSignals data ind =
      rsiBlock ind ((data.length : ℤ) - 1) ++ macdBlock ind ((data.length : ℤ) - 1) ++
      bbBlock ind ((data.length : ℤ) - 1) ((data.getLast?.getD default).close) ++
      emaBlock ind ((data.length : ℤ) - 1) ((data.getLast?.getD default).close) ++
      ttmBlock ind ((data.length : ℤ) - 1) ++
      srBlock ind ((data.getLast?.getD default).close) ++
      patternBlock ind ((data.length : ℤ) - 1) ∧
    (rsiBlock ind ((data.length : ℤ) - 1)).length ≤ 1 ∧
    (macdBlock ind ((data.length : ℤ) - 1)).length ≤ 1 ∧
    (bbBlock ind ((data.length : ℤ) - 1) ((data.getLast?.getD default).close)).length ≤ 1 ∧
    (ttmBlock ind ((data.length : ℤ) - 1)).length ≤ 2 ∧
    ((ind.ema9 = none ∨ ind.ema20 = none ∨ ind.ema50 = none) →
      emaBlock ind ((data.length : ℤ) - 1) ((data.getLast?.getD default).close) = []) ∧
    (ind.vwap = none →
      vwapPart ind ((data.length : ℤ) - 1) ((data.getLast?.getD default).close) = []) ∧
    (∀ vw : List ℚ, ind.vwap = some vw →
      (vwapPart ind ((data.length : ℤ) - 1) ((data.getLast?.getD default).close)).length =
        if jTruthy (jgetN vw ((data.length : ℤ) - 1)) then 1 else 0) :=
  ⟨rfl, rsiBlock_length ind _, macdBlock_length ind _, bbBlock_length ind _ _,
    ttmBlock_length ind _, emaBlock_absent ind _ _, vwapPart_none ind _ _,
    fun vw h => vwapPart_some_length ind _ _ vw h⟩

/-- C4 counterexample: on the same one-bar series, with the same `vwap` field
and the price 20% below VWAP, the VWAP-zone rule emits nothing when the
unrelated `ema9`/`ema20`/`ema50` fields are absent and emits its signal once
they are supplied (with values that trigger no EMA rule themselves) — an
unrelated indicator enables the rule's emission. -/
theorem generateSignals_unrelated_enable :
    vwapOnlyInd.vwap = vwapEmaInd.vwap ∧
    generateSignals [⟨41, 39, 40, 1000⟩] vwapOnlyInd = [] ∧
    generateSignals [⟨41, 39, 40, 1000⟩] vwapEmaInd =
      [⟨"VWAP Bounce Opportunity", "BULLISH", some "HIGH"⟩] := by
  refine ⟨rfl, ?_, ?_⟩
  · simp [generateSignals, rsiBlock, macdBlock, bbBlock, emaBlock, ttmBlock,
      srBlock, patternBlock, vwapOnlyInd]
  · norm_num [generateSignals, rsiBlock, macdBlock, bbBlock, emaBlock, ttmBlock,
      srBlock, patternBlock, vwapPart, crossPart, recentScan, vwapEmaInd,
      jgetN, jgetO, jIdx, jTruthy, jsGT, jsLT, jsLE, jval]

/-! ## Double top/bottom (C10) -/

lemma detect_filter_top (data : List Bar) (lookback : ℕ) (tolerance : ℚ) :
    (detectDoubleTopBottom data lookback tolerance).filter
        (fun p => p.type = "Double Top") =
      ((pairsAfter (dtPeaks data lookback)).filter
        fun p => dtQual tolerance p.1 p.2).map mkTopPattern := by
  unfold detectDoubleTopBottom
  rw [List.filter_append]
  have h1 : ∀ l : List (PPoint × PPoint),
      (l.map mkTopPattern).filter (fun p => p.type = "Double Top") =
        l.map mkTopPattern := by
    intro l
    apply List.filter_eq_self.2
    intro a ha
    rcases List.mem_map.1 ha with ⟨q, -, rfl⟩
    simp [mkTopPattern]
  have h2 : ∀ l : List (PPoint × PPoint),
      (l.map mkBottomPattern).filter (fun p => p.type = "Double Top") = [] := by
    intro l
    apply List.filter_eq_nil.2
    intro a ha
    rcases List.mem_map.1 ha with ⟨q, -, rfl⟩
    simp [mkBottomPattern]
  rw [h1, h2, List.append_nil]

lemma detect_filter_bottom (data : List Bar) (lookback : ℕ) (tolerance : ℚ) :
    (detectDoubleTopBottom data lookback tolerance).filter
        (fun p => p.type = "Double Bottom") =
      ((pairsAfter (dtTroughs data lookback)).filter
        fun p => dtQual tolerance p.1 p.2).map mkBottomPattern := by
  unfold detectDoubleTopBottom
  rw [List.filter_append]
  have h1 : ∀ l : List (PPoint × PPoint),
      (l.map mkTopPattern).filter (fun p => p.type = "Double Bottom") = [] := by
    intro l
    apply List.filter_eq_nil.2
    intro a ha
    rcases List.mem_map.1 ha with ⟨q, -, rfl⟩
    simp [mkTopPattern]
  have h2 : ∀ l : List (PPoint × PPoint),
      (l.map mkBottomPattern).filter (fun p => p.type = "Double Bottom") =
        l.map mkBottomPattern := by
    intro l
    apply List.filter_eq_self.2
    intro a ha
    rcases List.mem_map.1 ha with ⟨q, -, rfl⟩
    simp [mkBottomPattern]
  rw [h1, h2, List.nil_append]

/-- C10: every qualifying pair of peaks — prices within tolerance of each
other, more than 10 bars apart — yields exactly one Double Top labelled with
the average price and BEARISH, and every qualifying pair of troughs exactly
one Double Bottom at the average price with BULLISH; in particular a series
whose peak (resp. trough) list is exactly two qualifying peaks (troughs)
yields exactly one Double Top (Double Bottom) pattern. -/
theorem detectDoubleTopBottom_pairs :
    (∀ (data : List Bar) (lookback : ℕ) (tolerance : ℚ),
      (detectDoubleTopBottom data lookback tolerance).filter
          (fun p => p.type = "Double Top") =
        ((pairsAfter (dtPeaks data lookback)).filter
          fun p => dtQual tolerance p.1 p.2).map mkTopPattern) ∧
    (∀ (data : List Bar) (lookback : ℕ) (tolerance : ℚ),
      (detectDoubleTopBottom data lookback tolerance).filter
          (fun p => p.type = "Double Bottom") =
        ((pairsAfter (dtTroughs data lookback)).filter
          fun p => dtQual tolerance p.1 p.2).map mkBottomPattern) ∧
    (∀ (data : List Bar) (lookback : ℕ) (tolerance : ℚ) (p1 p2 : PPoint),
      dtPeaks data lookback = [p1, p2] →
      |p1.price - p2.price| / p1.price < tolerance →
      10 < (p2.index : ℤ) - (p1.index : ℤ) →
      (detectDoubleTopBottom data lookback tolerance).filter
          (fun p => p.type = "Double Top") =
        [⟨"Double Top", (p1.price + p2.price) / 2, p1.index, p2.index, "BEARISH"⟩]) ∧
    (∀ (data : List Bar) (lookback : ℕ) (tolerance : ℚ) (t1 t2 : PPoint),
      dtTroughs data lookback = [t1, t2] →
      |t1.price - t2.price| / t1.price < tolerance →
      10 < (t2.index : ℤ) - (t1.index : ℤ) →
      (detectDoubleTopBottom data lookback tolerance).filter
          (fun p => p.type = "Double Bottom") =
        [⟨"Double Bottom", (t1.price + t2.price) / 2, t1.index, t2.index, "BULLISH"⟩]) := by
  refine ⟨fun data lookback tolerance => detect_filter_top data lookback tolerance,
    fun data lookback tolerance => detect_filter_bottom data lookback tolerance, ?_, ?_⟩
  · intro data lookback tolerance p1 p2 hpk h1 h2
    rw [detect_filter_top, hpk]
    have hq : dtQual tolerance p1 p2 = true := by
      unfold dtQual
      exact decide_eq_true ⟨h1, h2⟩
    simp [pairsAfter, hq, mkTopPattern]
  · intro data lookback tolerance t1 t2 htr h1 h2
    rw [detect_filter_bottom, htr]
    have hq : dtQual tolerance t1 t2 = true := by
      unfold dtQual
      exact decide_eq_true ⟨h1, h2⟩
    simp [pairsAfter, hq, mkBottomPattern]

/-- C10 witness: at the first concrete series the peak list is exactly the
two qualifying peaks and exactly one Double Top is reported, at their average
price, with the BEARISH signal; at the second the trough list is exactly the
two qualifying troughs and exactly one Double Bottom is reported, at their
average price, with the BULLISH signal. -/
theorem detectDoubleTopBottom_pairs_witness :
    dtPeaks doubleTopData 2 = [⟨110, 2⟩, ⟨112, 13⟩] ∧
    (detectDoubleTopBottom doubleTopData 2 (3 / 100)).filter
        (fun p => p.type = "Double Top") =
      [⟨"Double Top", ((110 : ℚ) + 112) / 2, 2, 13, "BEARISH"⟩] ∧
    dtTroughs doubleBottomData 2 = [⟨80, 2⟩, ⟨81, 13⟩] ∧
    (detectDoubleTopBottom doubleBottomData 2 (3 / 100)).filter
        (fun p => p.type = "Double Bottom") =
      [⟨"Double Bottom", ((80 : ℚ) + 81) / 2, 2, 13, "BULLISH"⟩] := by
  have hpk : dtPeaks doubleTopData 2 = [⟨110, 2⟩, ⟨112, 13⟩] := by decide
  have htr : dtTroughs doubleBottomData 2 = [⟨80, 2⟩, ⟨81, 13⟩] := by decide
  refine ⟨hpk, ?_, htr, ?_⟩
  · exact detectDoubleTopBottom_pairs.2.2.1 doubleTopData 2 (3 / 100) ⟨110, 2⟩ ⟨112, 13⟩
      hpk (by norm_num) (by decide)
  · exact detectDoubleTopBottom_pairs.2.2.2 doubleBottomData 2 (3 / 100) ⟨80, 2⟩ ⟨81, 13⟩
      htr (by norm_num) (by decide)

/-! ## TTM squeeze bar colour (C1) -/

lemma squeeze_sma_19 :
    (calculateSMA (squeezeData.map Bar.close) 20).get? 19 = some (some 99) := by
  rw [calculateSMA, range_map_get? _ _ 19 (by decide), if_neg (by omega)]
  norm_num [squeezeData]

lemma squeeze_sma_20 :
    (calculateSMA (squeezeData.map Bar.close) 20).get? 20 = some (some (197 / 2)) := by
  rw [calculateSMA, range_map_get? _ _ 20 (by decide), if_neg (by omega)]
  norm_num [squeezeData]

lemma squeeze_var_19 : bbVariance (squeezeData.map Bar.close) 20 19 99 = 19 := by
  norm_num [bbVariance, bbWindow, squeezeData]

lemma squeeze_var_20 : bbVariance (squeezeData.map Bar.close) 20 20 (197 / 2) = 91 / 4 := by
  norm_num [bbVariance, bbWindow, squeezeData]

lemma squeeze_ema_19 :
    (calculateEMA (squeezeData.map Bar.close) 20).get? 19 = some (2060 / 21) := by
  norm_num [squeezeData, calculateEMA, emaAux]

lemma squeeze_ema_20 :
    (calculateEMA (squeezeData.map Bar.close) 20).get? 20 = some (42920 / 441) := by
  norm_num [squeezeData, calculateEMA, emaAux]

lemma squeeze_atr_19 :
    ((calculateATR squeezeData 20).get? 19) = some (some (17 / 5)) := by
  rw [calculateATR]
  rw [range_map_get? _ _ 19 (by decide), if_pos (by omega)]
  norm_num [trueRanges, trueRange, squeezeData, abs, max_def]

lemma squeeze_atr_20 :
    ((calculateATR squeezeData 20).get? 20) = some (some (17 / 5)) := by
  rw [calculateATR]
  rw [range_map_get? _ _ 20 (by decide), if_pos (by omega)]
  norm_num [trueRanges, trueRange, squeezeData, abs, max_def]

lemma squeeze_bbU_18 :
    (calculateBollingerBands squeezeData 20 2).upper.get? 18 = some none := by
  rw [calculateBollingerBands]
  rw [range_map_get? _ _ 18 (by decide), if_pos (by omega)]

lemma squeeze_bbU_19 :
    (calculateBollingerBands squeezeData 20 2).upper.get? 19 =
      some (some ((99 : ℝ) + Real.sqrt 19 * 2)) := by
  rw [calculateBollingerBands]
  rw [range_map_get? _ _ 19 (by decide), if_neg (by omega)]
  rw [squeeze_sma_19]
  dsimp only [Option.join, jval, Option.getD, Option.bind, id]
  rw [squeeze_var_19]
  norm_num

lemma squeeze_bbL_19 :
    (calculateBollingerBands squeezeData 20 2).lower.get? 19 =
      some (some ((99 : ℝ) - Real.sqrt 19 * 2)) := by
  rw [calculateBollingerBands]
  rw [range_map_get? _ _ 19 (by decide), if_neg (by omega)]
  rw [squeeze_sma_19]
  dsimp only [Option.join, jval, Option.getD, Option.bind, id]
  rw [squeeze_var_19]
  norm_num

lemma squeeze_bbU_20 :
    (calculateBollingerBands squeezeData 20 2).upper.get? 20 =
      some (some ((197 / 2 : ℝ) + Real.sqrt (91 / 4) * 2)) := by
  rw [calculateBollingerBands]
  rw [range_map_get? _ _ 20 (by decide), if_neg (by omega)]
  rw [squeeze_sma_20]
  dsimp only [Option.join, jval, Option.getD, Option.bind, id]
  rw [squeeze_var_20]
  norm_num

lemma squeeze_bbL_20 :
    (calculateBollingerBands squeezeData 20 2).lower.get? 20 =
      some (some ((197 / 2 : ℝ) - Real.sqrt (91 / 4) * 2)) := by
  rw [calculateBollingerBands]
  rw [range_map_get? _ _ 20 (by decide), if_neg (by omega)]
  rw [squeeze_sma_20]
  dsimp only [Option.join, jval, Option.getD, Option.bind, id]
  rw [squeeze_var_20]
  norm_num

lemma squeeze_gate_19 :
    rTruthy (((calculateBollingerBands squeezeData 20 2).upper.get? 19).join) ∧
    rTruthy (((calculateBollingerBands squeezeData 20 2).lower.get? 19).join) ∧
    jTruthy ((calculateEMA (squeezeData.map Bar.close) 20).get? 19) ∧
    jTruthy (((calculateATR squeezeData 20).get? 19).join) := by
  rw [squeeze_bbU_19, squeeze_bbL_19, squeeze_ema_19, squeeze_atr_19]
  have hs : Real.sqrt 19 < 99 / 2 := by
    rw [Real.sqrt_lt' (by norm_num : (0 : ℝ) < 99 / 2)]
    norm_num
  have hs0 : (0 : ℝ) ≤ Real.sqrt 19 := Real.sqrt_nonneg 19
  refine ⟨?_, ?_, ?_, ?_⟩
  · show (99 : ℝ) + Real.sqrt 19 * 2 ≠ 0
    nlinarith
  · show (99 : ℝ) - Real.sqrt 19 * 2 ≠ 0
    nlinarith
  · show jTruthy (some (2060 / 21)) = true
    simp [jTruthy]
  · show jTruthy (some (17 / 5)) = true
    simp [jTruthy]

lemma squeeze_gate_20 :
    rTruthy (((calculateBollingerBands squeezeData 20 2).upper.get? 20).join) ∧
    rTruthy (((calculateBollingerBands squeezeData 20 2).lower.get? 20).join) ∧
    jTruthy ((calculateEMA (squeezeData.map Bar.close) 20).get? 20) ∧
    jTruthy (((calculateATR squeezeData 20).get? 20).join) := by
  rw [squeeze_bbU_20, squeeze_bbL_20, squeeze_ema_20, squeeze_atr_20]
  have hs : Real.sqrt (91 / 4) < 197 / 4 := by
    rw [Real.sqrt_lt' (by norm_num : (0 : ℝ) < 197 / 4)]
    norm_num
  have hs0 : (0 : ℝ) ≤ Real.sqrt (91 / 4) := Real.sqrt_nonneg _
  refine ⟨?_, ?_, ?_, ?_⟩
  · show (197 / 2 : ℝ) + Real.sqrt (91 / 4) * 2 ≠ 0
    nlinarith
  · show (197 / 2 : ℝ) - Real.sqrt (91 / 4) * 2 ≠ 0
    nlinarith
  · show jTruthy (some (42920 / 441)) = true
    simp [jTruthy]
  · show jTruthy (some (17 / 5)) = true
    simp [jTruthy]

lemma squeeze_step_18 (prev : Option TTMEntry) :
    ttmStep squeezeData (calculateBollingerBands squeezeData 20 2)
      (calculateEMA (squeezeData.map Bar.close) 20) (calculateATR squeezeData 20)
      (3 / 2) 18 prev = none := by
  rw [ttmStep, if_neg]
  intro hc
  have h := hc.1
  rw [squeeze_bbU_18] at h
  exact h

lemma squeeze_step_19 :
    (ttmStep squeezeData (calculateBollingerBands squeezeData 20 2)
      (calculateEMA (squeezeData.map Bar.close) 20) (calculateATR squeezeData 20)
      (3 / 2) 19 none).map TTMEntry.momentum = some (-380 / 21) ∧
    (ttmStep squeezeData (calculateBollingerBands squeezeData 20 2)
      (calculateEMA (squeezeData.map Bar.close) 20) (calculateATR squeezeData 20)
      (3 / 2) 19 none).isSome = true := by
  rw [ttmStep, if_pos squeeze_gate_19]
  rw [squeeze_ema_19, squeeze_atr_19]
  refine ⟨?_, rfl⟩
  norm_num [squeezeData, jval]

lemma squeeze_step_20 (prev : Option TTMEntry) (hs : prev.isSome = true)
    (hm : (prev.map TTMEntry.momentum).getD 0 = -380 / 21) :
    (ttmStep squeezeData (calculateBollingerBands squeezeData 20 2)
      (calculateEMA (squeezeData.map Bar.close) 20) (calculateATR squeezeData 20)
      (3 / 2) 20 prev).map TTMEntry.momentum = some (-3230 / 441) ∧
    (ttmStep squeezeData (calculateBollingerBands squeezeData 20 2)
      (calculateEMA (squeezeData.map Bar.close) 20) (calculateATR squeezeData 20)
      (3 / 2) 20 prev).map TTMEntry.barColor = some "red" := by
  rw [ttmStep, if_pos squeeze_gate_20]
  rw [squeeze_ema_20, squeeze_atr_20]
  constructor
  · norm_num [squeezeData, jval]
  · norm_num [squeezeData, jval, hs, hm]

lemma ttmIterate_shift (step : ℕ → Option TTMEntry → Option TTMEntry)
    (start : ℕ) (prev : Option TTMEntry) :
    ∀ k : ℕ, ttmIterate step (start + 1) (step start prev) k =
      ttmIterate step start prev (k + 1)
  | 0 => by simp [ttmIterate]
  | k + 1 => by
    have h1 : ttmIterate step (start + 1) (step start prev) (k + 1) =
        step (start + 1 + (k + 1)) (ttmIterate step (start + 1) (step start prev) k) := rfl
    have h2 : ttmIterate step start prev (k + 1 + 1) =
        step (start + (k + 1 + 1)) (ttmIterate step start prev (k + 1)) := rfl
    rw [h1, h2, ttmIterate_shift step start prev k]
    congr 1
    omega

lemma ttmLoop_get (step : ℕ → Option TTMEntry → Option TTMEntry) :
    ∀ (count start : ℕ) (prev : Option TTMEntry) (k : ℕ), k < count →
      (ttmLoop step count start prev).get? k = some (ttmIterate step start prev k) := by
  intro count
  induction count with
  | zero => intro start prev k hk; omega
  | succ n ih =>
    intro start prev k hk
    cases k with
    | zero => rfl
    | succ j =>
      rw [ttmLoop]
      show (ttmLoop step n (start + 1) (step start prev)).get? j = _
      rw [ih (start + 1) (step start prev) j (by omega)]
      rw [ttmIterate_shift]

/-- C1: at `squeezeData` the TTM squeeze entries at indices 19 and 20 are both
defined, the momentum is negative at both and strictly rising from 19 to 20
(recovering toward zero) — and the bar colour at index 20 is `"red"`, where
the claim (and the source's own “TTM Red Bar … accelerating down”
description) requires `"maroon"` for negative rising momentum. -/
theorem calculateTTMSqueeze_barColor_swapped :
    ((calculateTTMSqueeze squeezeData).get? 19).join.map TTMEntry.momentum =
      some (-380 / 21) ∧
    ((calculateTTMSqueeze squeezeData).get? 20).join.map TTMEntry.momentum =
      some (-3230 / 441) ∧
    ((calculateTTMSqueeze squeezeData).get? 20).join.map TTMEntry.barColor =
      some "red" ∧
    (-380 / 21 : ℚ) < -3230 / 441 ∧ (-3230 / 441 : ℚ) < 0 := by
  have hloop : calculateTTMSqueeze squeezeData =
      ttmLoop (ttmStep squeezeData (calculateBollingerBands squeezeData 20 2)
        (calculateEMA (squeezeData.map Bar.close) 20) (calculateATR squeezeData 20)
        (3 / 2)) 22 0 none := rfl
  set S := ttmStep squeezeData (calculateBollingerBands squeezeData 20 2)
    (calculateEMA (squeezeData.map Bar.close) 20) (calculateATR squeezeData 20)
    (3 / 2) with hS
  have h18 : ttmIterate S 0 none 18 = none := by
    have : ttmIterate S 0 none 18 = S 18 (ttmIterate S 0 none 17) := rfl
    rw [this, hS]
    exact squeeze_step_18 _
  have h19 : ttmIterate S 0 none 19 = S 19 none := by
    have : ttmIterate S 0 none 19 = S 19 (ttmIterate S 0 none 18) := rfl
    rw [this, h18]
  have h20 : ttmIterate S 0 none 20 = S 20 (S 19 none) := by
    have : ttmIterate S 0 none 20 = S 20 (ttmIterate S 0 none 19) := rfl
    rw [this, h19]
  have hstep19 := squeeze_step_19
  rw [← hS] at hstep19
  have hstep20 := squeeze_step_20 (S 19 none) hstep19.2
    (by rw [hstep19.1]; rfl)
  rw [← hS] at hstep20
  have hget19 : (calculateTTMSqueeze squeezeData).get? 19 = some (S 19 none) := by
    rw [hloop, ttmLoop_get S 22 0 none 19 (by omega), h19]
  have hget20 : (calculateTTMSqueeze squeezeData).get? 20 = some (S 20 (S 19 none)) := by
    rw [hloop, ttmLoop_get S 22 0 none 20 (by omega), h20]
  refine ⟨?_, ?_, ?_, by norm_num, by norm_num⟩
  · rw [hget19]
    simpa using hstep19.1
  · rw [hget20]
    simpa using hstep20.1
  · rw [hget20]
    simpa using hstep20.2
